import Mathlib

/-!
Verification of the core policy engine of the "saogai" street-sweep
sign-up application (src/src/App.jsx, with a second variant in
src/src/src/App.jsx).

Shallow embedding conventions:
* JavaScript numbers are modelled by `ℚ` (all the constants and
  comparisons in the relevant code are exact decimals).
* A budget argument, which in JavaScript may be any value, is modelled by
  `BudgetInput`: either a numeric value or a non-numeric value; the idiom
  `Number(x) || 0` maps a non-numeric value (whose `Number` coercion is
  `NaN`, which is falsy) to `0` and keeps a numeric value unchanged
  (`0 || 0` is `0`).
* `Math.round(x)` in JavaScript rounds half towards positive infinity,
  i.e. it is `⌊x + 1/2⌋`.
-/

namespace Saogai

/-- A JavaScript value supplied as a budget: either a number or some
non-numeric value (undefined, a non-numeric string, ...). -/
inductive BudgetInput where
  | num (q : ℚ)
  | nonNumeric
deriving DecidableEq

/-- The coercion `Number(x) || 0` used at the top of both resolvers:
a non-numeric value becomes `0`, a numeric value is kept (note that a
negative number is truthy in JavaScript and therefore kept as is). -/
def jsNumOr0 : BudgetInput → ℚ
  | BudgetInput.num q => q
  | BudgetInput.nonNumeric => 0

/-- A rate tier `{ min, max, rate }`; `max = none` models `max: null`. -/
structure Tier where
  min : ℚ
  max : Option ℚ
  rate : ℚ
deriving DecidableEq

/-- The `small` band of a deposit policy: `{ upTo, ratio }`. -/
structure BandSmall where
  upTo : ℚ
  ratio : ℚ
deriving DecidableEq

/-- The `mid` band of a deposit policy: `{ from, to, ratio }`. -/
structure BandMid where
  lo : ℚ
  hi : ℚ
  ratio : ℚ
deriving DecidableEq

/-- The `large` band of a deposit policy: `{ from, ratio }`. -/
structure BandLarge where
  lo : ℚ
  ratio : ℚ
deriving DecidableEq

/-- A deposit policy with its three named bands. -/
structure DepositPolicy where
  small : BandSmall
  mid : BandMid
  large : BandLarge
deriving DecidableEq

/-- The per-group rules bundle `{ tiers, depositPolicy, priorityWindowMin }`. -/
structure Rules where
  tiers : List Tier
  depositPolicy : DepositPolicy
  priorityWindowMin : ℚ
deriving DecidableEq

/-- `DEFAULT_MDTG_RULES` from src/src/App.jsx lines 59-71. -/
def DEFAULT_MDTG_RULES : Rules where
  tiers := [⟨0, some 300, 6.5⟩, ⟨300, some 500, 6.3⟩, ⟨500, none, 6.0⟩]
  depositPolicy :=
    { small := ⟨300, 0.3⟩
      mid := ⟨300, 500, 0.5⟩
      large := ⟨500, 1.0⟩ }
  priorityWindowMin := 30

/-- The body of the `for (const t of rules.tiers)` loop of `mdtgRateOf`:
scan the tiers in order, returning the rate of the first tier `t` with
`t.max == null ? n >= t.min : n >= t.min && n < t.max`. -/
def rateScan (n : ℚ) : List Tier → Option ℚ
  | [] => none
  | t :: ts =>
    match t.max with
    | none => if t.min ≤ n then some t.rate else rateScan n ts
    | some m => if t.min ≤ n ∧ n < m then some t.rate else rateScan n ts

/-- `mdtgRateOf(budgetRMB, rules)` from src/src/App.jsx lines 87-95:
first matching tier's rate, else `rules.tiers.at(-1)?.rate ?? 6.0`. -/
def mdtgRateOf (budgetRMB : BudgetInput) (rules : Rules) : ℚ :=
  let n := jsNumOr0 budgetRMB
  match rateScan n rules.tiers with
  | some r => r
  | none => ((rules.tiers.getLast?).map Tier.rate).getD 6.0

/-- The prepayment kind: `"deposit"` or `"full"`. -/
inductive PrepayKind where
  | deposit
  | full
deriving DecidableEq

/-- The resolver result `{ type, ratio }`. -/
structure Prepay where
  type : PrepayKind
  ratio : ℚ
deriving DecidableEq

/-- `mdtgPrepayOf(budgetRMB, rules)` from src/src/App.jsx lines 96-105. -/
def mdtgPrepayOf (budgetRMB : BudgetInput) (rules : Rules) : Prepay :=
  let n := jsNumOr0 budgetRMB
  if n < rules.depositPolicy.small.upTo then
    { type := PrepayKind.deposit, ratio := rules.depositPolicy.small.ratio }
  else if rules.depositPolicy.mid.lo ≤ n ∧ n < rules.depositPolicy.mid.hi then
    { type := PrepayKind.deposit, ratio := rules.depositPolicy.mid.ratio }
  else
    { type := PrepayKind.full, ratio := 1.0 }

end Saogai

namespace Saogai

/-- Claim C1: with the default deposit policy, `resolvePrepay` returns
`{deposit, 0.3}` for budgets below 300, `{deposit, 0.5}` for budgets in
`[300, 500)`, `{full, 1.0}` for budgets at least 500; the boundaries 300
and 500 fall into the higher band. -/
theorem C1_prepay_default_bands (b : ℚ) :
    (b < 300 →
      mdtgPrepayOf (BudgetInput.num b) DEFAULT_MDTG_RULES
        = ⟨PrepayKind.deposit, 0.3⟩) ∧
    (300 ≤ b → b < 500 →
      mdtgPrepayOf (BudgetInput.num b) DEFAULT_MDTG_RULES
        = ⟨PrepayKind.deposit, 0.5⟩) ∧
    (500 ≤ b →
      mdtgPrepayOf (BudgetInput.num b) DEFAULT_MDTG_RULES
        = ⟨PrepayKind.full, 1.0⟩) ∧
    mdtgPrepayOf (BudgetInput.num 300) DEFAULT_MDTG_RULES
      = ⟨PrepayKind.deposit, 0.5⟩ ∧
    mdtgPrepayOf (BudgetInput.num 500) DEFAULT_MDTG_RULES
      = ⟨PrepayKind.full, 1.0⟩ := by
  refine ⟨?_, ?_, ?_,
    by norm_num [mdtgPrepayOf, DEFAULT_MDTG_RULES, jsNumOr0],
    by norm_num [mdtgPrepayOf, DEFAULT_MDTG_RULES, jsNumOr0]⟩
  · intro hlt
    simp only [mdtgPrepayOf, DEFAULT_MDTG_RULES, jsNumOr0]
    rw [if_pos hlt]
  · intro hge hlt
    simp only [mdtgPrepayOf, DEFAULT_MDTG_RULES, jsNumOr0]
    rw [if_neg (by linarith), if_pos ⟨hge, hlt⟩]
  · intro hge
    simp only [mdtgPrepayOf, DEFAULT_MDTG_RULES, jsNumOr0]
    rw [if_neg (by linarith), if_neg (by rintro ⟨-, h⟩; linarith)]

/-- Claim C1, witness: the three band hypotheses are each satisfiable;
instantiate the theorem at budgets 100, 400 and 700. -/
theorem C1_prepay_default_bands_witness :
    mdtgPrepayOf (BudgetInput.num 100) DEFAULT_MDTG_RULES
      = ⟨PrepayKind.deposit, 0.3⟩ ∧
    mdtgPrepayOf (BudgetInput.num 400) DEFAULT_MDTG_RULES
      = ⟨PrepayKind.deposit, 0.5⟩ ∧
    mdtgPrepayOf (BudgetInput.num 700) DEFAULT_MDTG_RULES
      = ⟨PrepayKind.full, 1.0⟩ :=
  ⟨(C1_prepay_default_bands 100).1 (by decide),
   (C1_prepay_default_bands 400).2.1 (by decide) (by decide),
   (C1_prepay_default_bands 700).2.2.1 (by decide)⟩

/-- Claim C2: with the default tier list, `resolveRate` returns 6.5 on
`[0, 300)`, 6.3 on `[300, 500)` and 6.0 on `[500, ∞)`; the boundaries 300
and 500 belong to the higher tier. -/
theorem C2_rate_default_tiers (b : ℚ) :
    (0 ≤ b → b < 300 →
      mdtgRateOf (BudgetInput.num b) DEFAULT_MDTG_RULES = 6.5) ∧
    (300 ≤ b → b < 500 →
      mdtgRateOf (BudgetInput.num b) DEFAULT_MDTG_RULES = 6.3) ∧
    (500 ≤ b →
      mdtgRateOf (BudgetInput.num b) DEFAULT_MDTG_RULES = 6.0) ∧
    mdtgRateOf (BudgetInput.num 300) DEFAULT_MDTG_RULES = 6.3 ∧
    mdtgRateOf (BudgetInput.num 500) DEFAULT_MDTG_RULES = 6.0 := by
  refine ⟨?_, ?_, ?_,
    by norm_num [mdtgRateOf, DEFAULT_MDTG_RULES, jsNumOr0, rateScan],
    by norm_num [mdtgRateOf, DEFAULT_MDTG_RULES, jsNumOr0, rateScan]⟩
  · intro h0 hlt
    simp only [mdtgRateOf, DEFAULT_MDTG_RULES, jsNumOr0, rateScan]
    rw [if_pos ⟨h0, hlt⟩]
  · intro hge hlt
    simp only [mdtgRateOf, DEFAULT_MDTG_RULES, jsNumOr0, rateScan]
    rw [if_neg (by rintro ⟨-, h⟩; linarith), if_pos ⟨hge, hlt⟩]
  · intro hge
    simp only [mdtgRateOf, DEFAULT_MDTG_RULES, jsNumOr0, rateScan]
    rw [if_neg (by rintro ⟨-, h⟩; linarith),
      if_neg (by rintro ⟨-, h⟩; linarith), if_pos (by linarith)]

/-- Claim C2, witness: instantiate the three tiers at budgets 200, 400
and 600. -/
theorem C2_rate_default_tiers_witness :
    mdtgRateOf (BudgetInput.num 200) DEFAULT_MDTG_RULES = 6.5 ∧
    mdtgRateOf (BudgetInput.num 400) DEFAULT_MDTG_RULES = 6.3 ∧
    mdtgRateOf (BudgetInput.num 600) DEFAULT_MDTG_RULES = 6.0 :=
  ⟨(C2_rate_default_tiers 200).1 (by decide) (by decide),
   (C2_rate_default_tiers 400).2.1 (by decide) (by decide),
   (C2_rate_default_tiers 600).2.2.1 (by decide)⟩

end Saogai

namespace Saogai

/-- Claim C3 as stated is false: `Number(budgetRMB) || 0` coerces only
non-numeric input to 0; a negative number is truthy and kept, and a
negative budget matches no default tier, so the rate falls back to the
last tier's 6.0 instead of `resolveRate(0) = 6.5`. Concretely at -5. -/
theorem C3_counterexample :
    mdtgRateOf (BudgetInput.num (-5)) DEFAULT_MDTG_RULES
      ≠ mdtgRateOf (BudgetInput.num 0) DEFAULT_MDTG_RULES := by
  norm_num [mdtgRateOf, DEFAULT_MDTG_RULES, jsNumOr0, rateScan]

/-- Claim C3, amended: non-numeric or missing budget input is treated as
0 by both resolvers, but negative numeric budgets are not clamped: they
are used as is. Under the default rules `resolvePrepay` still agrees
with its value at 0 on every negative budget (both fall in the small
band), while `resolveRate` matches no tier on a negative budget and
returns the last-tier fallback 6.0. -/
theorem C3_coercion_amended :
    (∀ rules : Rules,
      mdtgRateOf BudgetInput.nonNumeric rules
        = mdtgRateOf (BudgetInput.num 0) rules ∧
      mdtgPrepayOf BudgetInput.nonNumeric rules
        = mdtgPrepayOf (BudgetInput.num 0) rules) ∧
    (∀ b : ℚ, b < 0 →
      mdtgPrepayOf (BudgetInput.num b) DEFAULT_MDTG_RULES
        = mdtgPrepayOf (BudgetInput.num 0) DEFAULT_MDTG_RULES ∧
      mdtgRateOf (BudgetInput.num b) DEFAULT_MDTG_RULES = 6.0) := by
  refine ⟨fun rules => ⟨rfl, rfl⟩, fun b hb => ⟨?_, ?_⟩⟩
  · simp only [mdtgPrepayOf, DEFAULT_MDTG_RULES, jsNumOr0]
    rw [if_pos (by linarith : b < 300), if_pos (by norm_num : (0 : ℚ) < 300)]
  · simp only [mdtgRateOf, DEFAULT_MDTG_RULES, jsNumOr0, rateScan]
    rw [if_neg (by rintro ⟨h, -⟩; linarith),
      if_neg (by rintro ⟨h, -⟩; linarith), if_neg (by intro h; linarith)]
    rfl

/-- Claim C3 amended, witness: instantiate the negative-budget part at
budget -7. -/
theorem C3_coercion_amended_witness :
    mdtgPrepayOf (BudgetInput.num (-7)) DEFAULT_MDTG_RULES
      = mdtgPrepayOf (BudgetInput.num 0) DEFAULT_MDTG_RULES ∧
    mdtgRateOf (BudgetInput.num (-7)) DEFAULT_MDTG_RULES = 6.0 :=
  C3_coercion_amended.2 (-7) (by decide)

/-- The tier-matching rule in the spec's words: when `max` is null a tier
matches any budget at least `min`, otherwise it matches budgets in
`[min, max)`. -/
def tierMatches (n : ℚ) (t : Tier) : Bool :=
  match t.max with
  | none => decide (t.min ≤ n)
  | some m => decide (t.min ≤ n) && decide (n < m)

/-- The loop of `mdtgRateOf` returns exactly the rate of the first
matching tier in the supplied order. -/
theorem rateScan_eq_find (n : ℚ) :
    ∀ ts : List Tier, rateScan n ts = (ts.find? (tierMatches n)).map Tier.rate := by
  intro ts
  induction ts with
  | nil => rfl
  | cons t ts ih =>
    cases hmax : t.max with
    | none =>
      by_cases h : t.min ≤ n
      · simp [rateScan, List.find?, tierMatches, hmax, h]
      · simp [rateScan, List.find?, tierMatches, hmax, h, ih]
    | some m =>
      by_cases h : t.min ≤ n ∧ n < m
      · simp [rateScan, List.find?, tierMatches, hmax, h.1, h.2]
      · rcases not_and_or.mp h with h1 | h1
        · simp [rateScan, List.find?, tierMatches, hmax, h, h1, ih]
        · by_cases h2 : t.min ≤ n
          · simp [rateScan, List.find?, tierMatches, hmax, h, h1, h2, ih]
          · simp [rateScan, List.find?, tierMatches, hmax, h, h2, ih]

/-- Claim C6: `resolveRate` is total on every tier list; it returns the
rate of the first tier matching the coerced budget in the supplied
order, the rate of the last tier when no tier matches, and the hardcoded
default 6.0 when the tier list is empty. -/
theorem C6_rate_scan_fallback (b : BudgetInput) (rules : Rules) :
    (∀ t : Tier, rules.tiers.find? (tierMatches (jsNumOr0 b)) = some t →
      mdtgRateOf b rules = t.rate) ∧
    (rules.tiers.find? (tierMatches (jsNumOr0 b)) = none →
      (∀ tl : Tier, rules.tiers.getLast? = some tl →
        mdtgRateOf b rules = tl.rate) ∧
      (rules.tiers = [] → mdtgRateOf b rules = 6.0)) := by
  constructor
  · intro t hfind
    simp only [mdtgRateOf, rateScan_eq_find, hfind]
    rfl
  · intro hfind
    constructor
    · intro tl hlast
      simp only [mdtgRateOf, rateScan_eq_find, hfind, hlast]
      rfl
    · intro hnil
      simp only [mdtgRateOf, rateScan_eq_find, hfind, hnil]
      rfl

/-- Claim C6, witness: with the default tiers, budget 100 is matched by
the first tier; with an empty tier list the result is 6.0. -/
theorem C6_rate_scan_fallback_witness :
    mdtgRateOf (BudgetInput.num 100) DEFAULT_MDTG_RULES
      = (Tier.mk 0 (some 300) 6.5).rate ∧
    mdtgRateOf (BudgetInput.num 100)
      { tiers := [], depositPolicy := DEFAULT_MDTG_RULES.depositPolicy,
        priorityWindowMin := 30 } = 6.0 :=
  ⟨(C6_rate_scan_fallback (BudgetInput.num 100) DEFAULT_MDTG_RULES).1
      (Tier.mk 0 (some 300) 6.5) rfl,
   ((C6_rate_scan_fallback (BudgetInput.num 100)
      { tiers := [], depositPolicy := DEFAULT_MDTG_RULES.depositPolicy,
        priorityWindowMin := 30 }).2 rfl).2 rfl⟩

end Saogai

namespace Saogai

/-- A participant's lifecycle status. -/
inductive Status where
  | active
  | fulfilled
  | cancelled
deriving DecidableEq

/-- A participant record; `reserveRMB` is numeric in the store because
both creation paths apply `Number(v) || 0` before storing it. -/
structure Participant where
  pname : String
  handle : String
  wish : String
  reserveRMB : ℚ
  depositPaid : Bool
  status : Status
  note : String
deriving DecidableEq

/-- The `thresholds` record of an event. -/
structure Thresholds where
  headcount : ℚ
deriving DecidableEq

/-- The `rules` record of an event (only the `mdtg` group exists). -/
structure RulesBundle where
  mdtg : Rules
deriving DecidableEq

/-- An event, restricted to the fields the verified operations read. -/
structure Event where
  id : String
  thresholds : Thresholds
  rules : RulesBundle
  participants : List Participant
deriving DecidableEq

/-- JavaScript `Math.round`: round half towards positive infinity. -/
def jsRound (q : ℚ) : ℤ := ⌊q + 1/2⌋

/-- The two-decimal rounding idiom `Math.round(x * 100) / 100`. -/
def round2 (q : ℚ) : ℚ := (jsRound (q * 100) : ℚ) / 100

/-- The record returned by `calcStats`. -/
structure Stats where
  count : ℕ
  activeCount : ℕ
  totalReserveRMB : ℚ
  collectedPrepayRMB : ℚ
deriving DecidableEq

/-- `calcStats(evt)` from src/src/App.jsx lines 1011-1026. -/
def calcStats (evt : Event) : Stats :=
  let count := evt.participants.length
  let activeList := evt.participants.filter fun p => decide (p.status = Status.active)
  let activeCount := activeList.length
  let totalReserveRMB :=
    round2 (evt.participants.foldl (fun a p => a + p.reserveRMB) 0)
  let collectedPrepayRMB :=
    round2 (evt.participants.foldl (fun a p =>
      let pre := mdtgPrepayOf (BudgetInput.num p.reserveRMB) evt.rules.mdtg
      let need := p.reserveRMB * pre.ratio
      a + (if p.depositPaid then need else 0)) 0)
  { count := count, activeCount := activeCount,
    totalReserveRMB := totalReserveRMB, collectedPrepayRMB := collectedPrepayRMB }

/-- A left fold accumulating `+ f x` computes the initial value plus the
sum of `f` over the list. -/
theorem foldl_add_map_sum {A : Type} (f : A → ℚ) :
    ∀ (l : List A) (a : ℚ),
      l.foldl (fun acc x => acc + f x) a = a + (l.map f).sum := by
  intro l
  induction l with
  | nil => intro a; simp
  | cons x xs ih =>
    intro a
    simp only [List.foldl_cons, ih, List.map_cons, List.sum_cons]
    ring

/-- Summing `if pred x then g x else 0` over a list is summing `g` over
the sublist where `pred` holds. -/
theorem sum_map_ite {A : Type} (pred : A → Bool) (g : A → ℚ) :
    ∀ l : List A,
      (l.map fun x => if pred x then g x else 0).sum
        = ((l.filter pred).map g).sum := by
  intro l
  induction l with
  | nil => rfl
  | cons x xs ih =>
    by_cases h : pred x <;>
      simp [List.filter_cons, h, ih]

/-- Claim C4: `calcStats` returns the participant count regardless of
status, the count of participants with status `active`, the
status-independent sum of budgets rounded to 2 decimals, and the sum of
`budget * resolvePrepay(budget).ratio` over exactly the participants
with the deposit-collected flag, rounded to 2 decimals; prepending a
participant whose flag is unset leaves `collectedPrepay` unchanged. -/
theorem C4_calcStats_aggregate (evt : Event) :
    (calcStats evt).count = evt.participants.length ∧
    (calcStats evt).activeCount
      = evt.participants.countP (fun p => decide (p.status = Status.active)) ∧
    (calcStats evt).totalReserveRMB
      = round2 ((evt.participants.map fun p => p.reserveRMB).sum) ∧
    (calcStats evt).collectedPrepayRMB
      = round2 (((evt.participants.filter fun p => p.depositPaid).map fun p =>
          p.reserveRMB
            * (mdtgPrepayOf (BudgetInput.num p.reserveRMB) evt.rules.mdtg).ratio).sum) ∧
    (∀ p : Participant, p.depositPaid = false →
      (calcStats { evt with participants := p :: evt.participants }).collectedPrepayRMB
        = (calcStats evt).collectedPrepayRMB) := by
  refine ⟨rfl, ?_, ?_, ?_, ?_⟩
  · simp [calcStats, List.countP_eq_length_filter]
  · simp only [calcStats]
    rw [foldl_add_map_sum (fun p : Participant => p.reserveRMB)]
    rw [zero_add]
  · simp only [calcStats]
    rw [foldl_add_map_sum (fun p : Participant =>
      if p.depositPaid then p.reserveRMB
        * (mdtgPrepayOf (BudgetInput.num p.reserveRMB) evt.rules.mdtg).ratio else 0)]
    rw [zero_add, sum_map_ite (fun p : Participant => p.depositPaid)]
  · intro p hp
    simp only [calcStats]
    rw [foldl_add_map_sum (fun q : Participant =>
        if q.depositPaid then q.reserveRMB
          * (mdtgPrepayOf (BudgetInput.num q.reserveRMB) evt.rules.mdtg).ratio else 0),
      foldl_add_map_sum (fun q : Participant =>
        if q.depositPaid then q.reserveRMB
          * (mdtgPrepayOf (BudgetInput.num q.reserveRMB) evt.rules.mdtg).ratio else 0)]
    simp [hp]

/-- Claim C4, witness: the unpaid-participant hypothesis discharged on a
concrete two-participant event. -/
theorem C4_calcStats_aggregate_witness :
    (calcStats ⟨"e1", ⟨6⟩, ⟨DEFAULT_MDTG_RULES⟩,
        ⟨"p0", "h0", "w0", 9000, false, Status.active, ""⟩ ::
          [⟨"p1", "h1", "w1", 200, true, Status.active, ""⟩]⟩).collectedPrepayRMB
      = (calcStats ⟨"e1", ⟨6⟩, ⟨DEFAULT_MDTG_RULES⟩,
          [⟨"p1", "h1", "w1", 200, true, Status.active, ""⟩]⟩).collectedPrepayRMB :=
  (C4_calcStats_aggregate ⟨"e1", ⟨6⟩, ⟨DEFAULT_MDTG_RULES⟩,
      [⟨"p1", "h1", "w1", 200, true, Status.active, ""⟩]⟩).2.2.2.2
    ⟨"p0", "h0", "w0", 9000, false, Status.active, ""⟩ rfl

end Saogai

namespace Saogai

/-- The denominator guard `(total || 1)` of the progress bar: `0`,
`undefined` and `NaN` are falsy and replaced by 1; any other number is
kept (including a negative one). -/
def jsOrOne : Option ℚ → ℚ
  | none => 1
  | some d => if d = 0 then 1 else d

/-- The percentage computed by `ProgressBar` (src/src/App.jsx line 654):
`Math.max(0, Math.min(100, Math.round(((current || 0) / (total || 1)) * 100)))`;
`current` is the numeric `activeCount`, on which `|| 0` is the
identity. -/
def progressPct (current : ℚ) (total : Option ℚ) : ℤ :=
  max 0 (min 100 (jsRound (current / jsOrOne total * 100)))

/-- Claim C5 as stated is false for a negative threshold: the code also
clamps the percentage from below at 0, so at `activeCount = 1`,
`threshold = -100` it shows 0 while the claimed formula
`min(100, round(activeCount/d*100))` gives -1. -/
theorem C5_progress_counterexample :
    progressPct 1 (some (-100))
      ≠ min 100 (jsRound ((1 : ℚ) / jsOrOne (some (-100)) * 100)) := by
  norm_num [progressPct, jsRound, jsOrOne]

/-- Claim C5, amended: the progress computation is total (a zero or
undefined threshold is replaced by denominator 1, so no division by
zero); for every non-negative activeCount and every threshold that is
undefined, zero or non-negative the displayed percentage equals
`min(100, round(activeCount / d * 100))` with `d` the guarded
denominator, and with activeCount 0 the progress is 0 for every
threshold whatsoever. -/
theorem C5_progress_amended (a : ℚ) (t : Option ℚ) (ha : 0 ≤ a) :
    ((∀ d : ℚ, t = some d → 0 ≤ d) →
      progressPct a t = min 100 (jsRound (a / jsOrOne t * 100))) ∧
    (a = 0 → progressPct a t = 0) := by
  constructor
  · intro ht
    have hpos : 0 < jsOrOne t := by
      cases t with
      | none => norm_num [jsOrOne]
      | some d =>
        have hd : 0 ≤ d := ht d rfl
        simp only [jsOrOne]
        by_cases h0 : d = 0
        · rw [if_pos h0]; norm_num
        · rw [if_neg h0]; exact lt_of_le_of_ne hd (Ne.symm h0)
    have hx : 0 ≤ a / jsOrOne t * 100 :=
      mul_nonneg (div_nonneg ha hpos.le) (by norm_num)
    have hr : (0 : ℤ) ≤ jsRound (a / jsOrOne t * 100) := by
      rw [jsRound]
      exact Int.le_floor.mpr (by push_cast; linarith)
    have hmin : (0 : ℤ) ≤ min 100 (jsRound (a / jsOrOne t * 100)) :=
      le_min (by norm_num) hr
    exact max_eq_right hmin
  · intro h0
    subst h0
    have h : (⌊(0 : ℚ) / jsOrOne t * 100 + 1/2⌋ : ℤ) = 0 := by
      rw [zero_div, zero_mul]
      norm_num
    simp only [progressPct, jsRound, h]
    decide

/-- Claim C5 amended, witness: three active participants against a
threshold of 6 show the unclamped formula value (50%). -/
theorem C5_progress_amended_witness :
    progressPct 3 (some 6)
      = min 100 (jsRound ((3 : ℚ) / jsOrOne (some 6) * 100)) :=
  (C5_progress_amended 3 (some 6) (by decide)).1
    (fun d hd => Option.some.inj hd ▸ (by decide : (0 : ℚ) ≤ 6))

/-- `s.replaceAll('"', '""')`, on the character-list model of a
JavaScript string. -/
def escapeQuotes : List Char → List Char
  | [] => []
  | c :: cs => (if c = '\x22' then ['\x22', '\x22'] else [c]) ++ escapeQuotes cs

/-- `s.includes(ab)` for a two-character search string `a, b`. -/
def hasPair (a b : Char) : List Char → Bool
  | [] => false
  | [_] => false
  | c :: d :: rest => (c = a && d = b) || hasPair a b (d :: rest)

/-- `safeCSV` from src/src/App.jsx lines 1258-1265. Its newline test is
`s.includes("\\n")`, which in JavaScript is the two-character sequence
backslash-n, not a newline. -/
def safeCSVA (s : List Char) : List Char :=
  if s.contains ',' || s.contains '\x22' || hasPair '\\' 'n' s then
    '\x22' :: (escapeQuotes s ++ ['\x22'])
  else s

/-- `safeCSV` from src/src/src/App.jsx lines 578-585, whose newline test
is `s.includes("\n")`: an actual newline character. -/
def safeCSVB (s : List Char) : List Char :=
  if s.contains ',' || s.contains '\x22' || s.contains '\n' then
    '\x22' :: (escapeQuotes s ++ ['\x22'])
  else s

/-- The string `"multi\nline"` of the repository's own unit test, with a
real newline character. -/
def newlineProbe : List Char :=
  ['m', 'u', 'l', 't', 'i', '\n', 'l', 'i', 'n', 'e']

/-- Claim C7 is the intended behavior but src/src/App.jsx violates it:
its `safeCSV` returns a newline-containing field unchanged (it looks for
a literal backslash-n), contradicting the file's own unit test
"newline quoted"; the src/src/src/App.jsx variant quotes it as claimed. -/
theorem C7_safeCSV_newline_divergence :
    safeCSVA newlineProbe = newlineProbe ∧
    newlineProbe.contains '\n' = true ∧
    safeCSVB newlineProbe = '\x22' :: (escapeQuotes newlineProbe ++ ['\x22']) := by
  refine ⟨by decide, by decide, ?_⟩
  simp [safeCSVB, newlineProbe]

/-- The top-level store `{ events, selectedEventId }`. -/
structure Store where
  events : List Event
  selectedEventId : Option String
deriving DecidableEq

/-- The result of `JSON.parse` on an imported backup file, abstracted:
`none` models a text that does not parse (the `catch` path of
`importJSON`); a parsed value carries the truthiness of its top-level
`events` field and the store it denotes. -/
structure ImportedDoc where
  eventsTruthy : Bool
  asStore : Store
deriving DecidableEq

/-- The `reader.onload` handler of `importJSON` from src/src/App.jsx
lines 254-269: parse, throw unless `obj?.events` is truthy, otherwise
`setData(obj)`; the Bool result records whether the failure alert is
shown. -/
def importJSON (parsed : Option ImportedDoc) (current : Store) : Store × Bool :=
  match parsed with
  | none => (current, true)
  | some doc =>
    if doc.eventsTruthy then (doc.asStore, false) else (current, true)

/-- Claim C8: backup import is atomic on failure: on a parse error or a
missing/falsy top-level `events` field the store is unchanged and the
error message is shown; otherwise the store is replaced by the imported
object and no error is shown. -/
theorem C8_importJSON_atomic (parsed : Option ImportedDoc) (current : Store) :
    ((parsed = none ∨ (∃ doc : ImportedDoc, parsed = some doc ∧ doc.eventsTruthy = false)) →
      importJSON parsed current = (current, true)) ∧
    (∀ doc : ImportedDoc, parsed = some doc → doc.eventsTruthy = true →
      importJSON parsed current = (doc.asStore, false)) := by
  constructor
  · rintro (rfl | ⟨doc, rfl, hfalse⟩)
    · rfl
    · simp [importJSON, hfalse]
  · rintro doc rfl htrue
    simp [importJSON, htrue]

/-- Claim C8, witness: a parse failure against the empty store leaves it
unchanged and shows the message. -/
theorem C8_importJSON_atomic_witness :
    importJSON none ⟨[], none⟩ = (⟨[], none⟩, true) :=
  (C8_importJSON_atomic none ⟨[], none⟩).1 (Or.inl rfl)

/-- `removeEvent` from src/src/App.jsx lines 145-149: filter out the id,
then select `filtered[0]?.id ?? null`. -/
def removeEvent (id : String) (d : Store) : Store :=
  let filtered := d.events.filter fun e => decide (e.id ≠ id)
  { events := filtered, selectedEventId := filtered.head?.map Event.id }

/-- Claim C9: `removeEvent` removes exactly the events with the given id
(preserving the order of the rest), re-selects the first remaining
event's id or none when no event remains, and does this independently of
which event was previously selected. -/
theorem C9_removeEvent (id : String) (d : Store) :
    (removeEvent id d).events = d.events.filter (fun e => decide (e.id ≠ id)) ∧
    (∀ e : Event, e ∈ (removeEvent id d).events ↔ e ∈ d.events ∧ e.id ≠ id) ∧
    (removeEvent id d).selectedEventId
      = ((d.events.filter (fun e => decide (e.id ≠ id))).head?).map Event.id ∧
    (d.events.filter (fun e => decide (e.id ≠ id)) = [] →
      (removeEvent id d).selectedEventId = none) ∧
    (∀ s : Option String,
      removeEvent id { d with selectedEventId := s } = removeEvent id d) := by
  refine ⟨rfl, ?_, rfl, ?_, fun s => rfl⟩
  · intro e
    simp [removeEvent, List.mem_filter]
  · intro hempty
    show ((d.events.filter fun e => decide (e.id ≠ id)).head?).map Event.id = none
    rw [hempty]
    rfl

/-- Claim C9, witness: deleting the only event of a one-event store
leaves no events and a null selection. -/
theorem C9_removeEvent_witness :
    (removeEvent "a" ⟨[⟨"a", ⟨6⟩, ⟨DEFAULT_MDTG_RULES⟩, []⟩], some "a"⟩).selectedEventId
      = none :=
  (C9_removeEvent "a" ⟨[⟨"a", ⟨6⟩, ⟨DEFAULT_MDTG_RULES⟩, []⟩], some "a"⟩).2.2.2.1
    (by simp)

end Saogai


/-!
The second source-file variant, src/src/src/App.jsx: its core policy
functions `mdtgRateOf` (lines 84-91), `mdtgPrepayOf` (lines 92-101) and
`calcStats` (lines 482-491) are translated here over the same data
model, each from that file's own text.
-/

namespace Saogai.B

/-- The tier loop of the second variant's `mdtgRateOf`
(src/src/src/App.jsx lines 86-89). -/
def rateScan (n : ℚ) : List Tier → Option ℚ
  | [] => none
  | t :: ts =>
    match t.max with
    | none => if t.min ≤ n then some t.rate else rateScan n ts
    | some m => if t.min ≤ n ∧ n < m then some t.rate else rateScan n ts

/-- `mdtgRateOf` from src/src/src/App.jsx lines 84-91. -/
def mdtgRateOf (budgetRMB : BudgetInput) (rules : Rules) : ℚ :=
  let n := jsNumOr0 budgetRMB
  match rateScan n rules.tiers with
  | some r => r
  | none => ((rules.tiers.getLast?).map Tier.rate).getD 6.0

/-- `mdtgPrepayOf` from src/src/src/App.jsx lines 92-101. -/
def mdtgPrepayOf (budgetRMB : BudgetInput) (rules : Rules) : Prepay :=
  let n := jsNumOr0 budgetRMB
  if n < rules.depositPolicy.small.upTo then
    { type := PrepayKind.deposit, ratio := rules.depositPolicy.small.ratio }
  else if rules.depositPolicy.mid.lo ≤ n ∧ n < rules.depositPolicy.mid.hi then
    { type := PrepayKind.deposit, ratio := rules.depositPolicy.mid.ratio }
  else
    { type := PrepayKind.full, ratio := 1.0 }

/-- `calcStats` from src/src/src/App.jsx lines 482-491. -/
def calcStats (evt : Event) : Stats :=
  let count := evt.participants.length
  let activeList := evt.participants.filter fun p => decide (p.status = Status.active)
  let activeCount := activeList.length
  let totalReserveRMB :=
    round2 (evt.participants.foldl (fun a p => a + p.reserveRMB) 0)
  let collectedPrepayRMB :=
    round2 (evt.participants.foldl (fun a p =>
      let pre := mdtgPrepayOf (BudgetInput.num p.reserveRMB) evt.rules.mdtg
      let need := p.reserveRMB * pre.ratio
      a + (if p.depositPaid then need else 0)) 0)
  { count := count, activeCount := activeCount,
    totalReserveRMB := totalReserveRMB, collectedPrepayRMB := collectedPrepayRMB }

end Saogai.B

namespace Saogai

/-- Claim C10: the two source-file variants implement extensionally
equal core policy functions: their rate resolvers, prepayment resolvers
and aggregators agree on every input. -/
theorem C10_variants_agree :
    (∀ (b : BudgetInput) (rules : Rules),
      mdtgRateOf b rules = B.mdtgRateOf b rules) ∧
    (∀ (b : BudgetInput) (rules : Rules),
      mdtgPrepayOf b rules = B.mdtgPrepayOf b rules) ∧
    (∀ evt : Event, calcStats evt = B.calcStats evt) := by
  have hscan : ∀ (n : ℚ) (ts : List Tier), rateScan n ts = B.rateScan n ts := by
    intro n ts
    induction ts with
    | nil => rfl
    | cons t ts ih =>
      cases t.max <;> simp only [rateScan, B.rateScan, ih]
  refine ⟨fun b rules => ?_, fun b rules => rfl, fun evt => ?_⟩
  · simp only [mdtgRateOf, B.mdtgRateOf, hscan]
  · simp only [calcStats, B.calcStats]
    rfl

end Saogai
